import Mathlib

/-!
Shallow embedding of the InkyPi display state & power management subsystem.

Embedded source files:
  * `src/display/display_manager.py` — `_is_solid_black`, `DisplayManager.display_image`,
    `sleep`, `wake`, `clear_panel`.
  * `src/hw/gpio_inputs.py` — `GpioInputManager._press_black`, `_on_motion`.
  * `src/config.py` — the configuration snapshot consumed by the manager.

PIL images entering the manager are modelled concretely as pixel grids
(`PImage`); frames produced by the transform pipeline are modelled as a term
tracking which transform stages were applied (`Frame`), since the transform
helpers (`utils/image_utils.py`) are not part of the sources and are modelled
from the spec.  Hardware interaction is modelled as a trace of attempted
driver calls (`HwEvent`); a driver exception is a behaviour flag on the
driver, and the Python `try/except` wrappers are reflected in which events
can appear and in the state that results.
-/

/-- An RGB pixel, as PIL mode "RGB" stores it. -/
abbrev Pixel := Nat × Nat × Nat

/-- A concrete in-memory image: a PIL `Image` in mode "RGB", row-major pixels. -/
structure PImage where
  width : Nat
  height : Nat
  pixels : List Pixel
deriving DecidableEq, Repr

/-- PIL's `img.size` attribute: `(width, height)`. -/
def PImage.size (i : PImage) : Nat × Nat := (i.width, i.height)

/-- PIL's RGB→L conversion (ITU-R 601-2 luma, integer arithmetic as PIL
computes it: `L = (R*19595 + G*38470 + B*7471 + 0x8000) >> 16`). -/
def lum (p : Pixel) : Nat :=
  (p.1 * 19595 + p.2.1 * 38470 + p.2.2 * 7471 + 32768) / 65536

/-- PIL's `Image.getextrema` on a single-band (L) image: `(min, max)` over all
pixels, or no extrema for an empty image. -/
def getextrema (l : List Nat) : Option (Nat × Nat) :=
  match l with
  | [] => none
  | x :: xs => some (xs.foldl (fun mm v => (min mm.1 v, max mm.2 v)) (x, x))

/-- `_is_solid_black` from `display_manager.py`: convert to 8-bit luminance and
check that the extrema are `(0, 0)`. -/
def is_solid_black (img : PImage) : Bool :=
  getextrema (img.pixels.map lum) = some (0, 0)

/-- `PIL.Image.new("RGB", (w, h), "black")`. -/
def blackImage (w h : Nat) : PImage :=
  ⟨w, h, List.replicate (w * h) (0, 0, 0)⟩

/-- The `image_settings` dict: enhancement knobs (name/value pairs); `[]` is
the empty dict `{}`. -/
abbrev ImageSettings := List (String × Int)

/-- A frame as produced by the manager: the input image together with the
transform stages that were applied to it, innermost first. -/
inductive Frame
  | raw (i : PImage)
  | oriented (o : String) (f : Frame)
  | resized (w h : Nat) (f : Frame)
  | rotated180 (f : Frame)
  | enhanced (s : ImageSettings) (f : Frame)
deriving DecidableEq, Repr

/-- Frame dimensions.  An orientation remap to "vertical" swaps the axes
(the startup code in `inkypi.py` reverses the panel dimensions exactly for
`orientation == "vertical"`); a resize imposes its target; a 180° rotation and
enhancement preserve dimensions. -/
def Frame.size : Frame → Nat × Nat
  | .raw i => i.size
  | .oriented o f => if o = "vertical" then ((Frame.size f).2, (Frame.size f).1) else Frame.size f
  | .resized w h _ => (w, h)
  | .rotated180 f => Frame.size f
  | .enhanced _ f => Frame.size f

/-- Whether the enhancement stage was applied anywhere in the frame's history. -/
def Frame.usedEnhancement : Frame → Bool
  | .raw _ => false
  | .oriented _ f => Frame.usedEnhancement f
  | .resized _ _ f => Frame.usedEnhancement f
  | .rotated180 f => Frame.usedEnhancement f
  | .enhanced _ _ => true

/-- Whether the orientation remap stage was applied anywhere in the history. -/
def Frame.usedOrientation : Frame → Bool
  | .raw _ => false
  | .oriented _ _ => true
  | .resized _ _ f => Frame.usedOrientation f
  | .rotated180 f => Frame.usedOrientation f
  | .enhanced _ f => Frame.usedOrientation f

/-- Whether the 180° rotation stage was applied anywhere in the history. -/
def Frame.usedRotation : Frame → Bool
  | .raw _ => false
  | .oriented _ f => Frame.usedRotation f
  | .resized _ _ f => Frame.usedRotation f
  | .rotated180 _ => true
  | .enhanced _ f => Frame.usedRotation f

/-- Modelled from the spec: `change_orientation` from `utils/image_utils.py`
(absent from the sources) — "orientation remap if an orientation other than
the panel's native orientation is configured". -/
def change_orientation (f : Frame) (o : String) : Frame := Frame.oriented o f

/-- Modelled from the spec: `resize_image` from `utils/image_utils.py`
(absent from the sources) — "resize to exact panel resolution"; "resize is a
no-op if the image already matches resolution". -/
def resize_image (f : Frame) (res : Nat × Nat) : Frame :=
  if Frame.size f = res then f else Frame.resized res.1 res.2 f

/-- Modelled from the spec: `apply_image_enhancement` from
`utils/image_utils.py` (absent from the sources) — "enhancement adjustments
applied last"; "enhancement is a no-op if settings are absent". -/
def apply_image_enhancement (f : Frame) (s : ImageSettings) : Frame :=
  if s = [] then f else Frame.enhanced s f

/-- A resolved display driver: which optional attributes it exposes
(`hasattr` checks in the manager) and which of its calls raise at runtime. -/
structure Driver where
  hasDisplayImage : Bool
  hasDisplay : Bool
  hasDraw : Bool
  hasRefresh : Bool
  hasSleep : Bool
  hasWake : Bool
  hasClearLower : Bool
  hasClearUpper : Bool
  pushRaises : Bool
  sleepRaises : Bool
  wakeRaises : Bool
  clearRaises : Bool
deriving DecidableEq, Repr

/-- An attempted call into the hardware driver. -/
inductive HwEvent
  | pushDisplayImage (f : Frame) (s : ImageSettings)
  | pushDisplay (f : Frame)
  | pushDraw (f : Frame)
  | refreshPanel
  | drvSleep
  | drvWake
  | drvClearLower (toWhite : Bool)
  | drvClearUpper (toWhite : Bool)
deriving DecidableEq, Repr

/-- The read-only configuration snapshot consumed by the manager
(`Config.get_config` / `Config.get_resolution` in `config.py`). -/
structure DeviceConfig where
  resolution : Nat × Nat
  orientation : Option String
  invertedImage : Bool
  imageSettings : ImageSettings
deriving DecidableEq, Repr

/-- The manager's mutable in-memory state: the `_asleep` flag and the
CachedFrame artifact (`current_image.png`; `none` while absent). -/
structure ManagerState where
  asleep : Bool
  cache : Option Frame
deriving DecidableEq, Repr

/-- Outcome of a `display_image` call: the returned frame or the raised
error, the state afterwards, and the trace of attempted driver calls. -/
structure DisplayResult where
  result : Except String Frame
  state : ManagerState
  events : List HwEvent
deriving Repr

/-- The capability dispatch at the bottom of `display_image`: invoke the
richest push attribute the driver exposes (`display_image`, else `display`,
else `draw` followed by `refresh` when present).  A raise inside the chosen
call aborts it (so `draw`'s follow-up `refresh` is skipped) but the attempt
itself is recorded; the surrounding `try/except` swallows the exception. -/
def pushFrame (d : Driver) (f : Frame) (s : ImageSettings) : List HwEvent :=
  if d.hasDisplayImage then [HwEvent.pushDisplayImage f s]
  else if d.hasDisplay then [HwEvent.pushDisplay f]
  else if d.hasDraw then
    if d.pushRaises then [HwEvent.pushDraw f]
    else HwEvent.pushDraw f :: (if d.hasRefresh then [HwEvent.refreshPanel] else [])
  else []

/-- `DisplayManager.display_image(image, image_settings, save_to_cache,
force_draw)` from `display_manager.py`, lines 89–165.  `display` is
`self.display` (`none` models a missing/falsy display instance). -/
def display_image (cfg : DeviceConfig) (display : Option Driver) (st : ManagerState)
    (image : PImage) (image_settings : Option ImageSettings)
    (save_to_cache : Bool) (force_draw : Bool) : DisplayResult :=
  if is_solid_black image then
    -- FAST PATH: solid black; `save_to_cache = False` (never cache black)
    let res := cfg.resolution
    let f : Frame :=
      if image.size ≠ res then Frame.resized res.1 res.2 (Frame.raw image)
      else Frame.raw image
    if st.asleep && !force_draw then ⟨Except.ok f, st, []⟩
    else
      match display with
      | none => ⟨Except.error "No valid display instance initialized.", st, []⟩
      | some d => ⟨Except.ok f, st, pushFrame d f []⟩
  else
    -- NORMAL PATH
    let settings :=
      match image_settings with
      | some s => s
      | none => cfg.imageSettings
    let f1 :=
      match cfg.orientation with
      | some o => if o ≠ "" then change_orientation (Frame.raw image) o else Frame.raw image
      | none => Frame.raw image
    let f2 := resize_image f1 cfg.resolution
    let f3 := if cfg.invertedImage then Frame.rotated180 f2 else f2
    let f4 := apply_image_enhancement f3 settings
    let st1 := if save_to_cache && !st.asleep then { st with cache := some f4 } else st
    if st.asleep && !force_draw then ⟨Except.ok f4, st1, []⟩
    else
      match display with
      | none => ⟨Except.error "No valid display instance initialized.", st1, []⟩
      | some d => ⟨Except.ok f4, st1, pushFrame d f4 settings⟩

/-- `DisplayManager.sleep()`: set `_asleep` first, then best-effort driver
sleep (skipped when absent, exception swallowed). -/
def sleep (display : Option Driver) (st : ManagerState) : ManagerState × List HwEvent :=
  let st1 := { st with asleep := true }
  match display with
  | some d => if d.hasSleep then (st1, [HwEvent.drvSleep]) else (st1, [])
  | none => (st1, [])

/-- `DisplayManager.wake()`: clear `_asleep` first, then best-effort driver
wake (skipped when absent, exception swallowed). -/
def wake (display : Option Driver) (st : ManagerState) : ManagerState × List HwEvent :=
  let st1 := { st with asleep := false }
  match display with
  | some d => if d.hasWake then (st1, [HwEvent.drvWake]) else (st1, [])
  | none => (st1, [])

/-- `DisplayManager.clear_panel(to_white)`: try `clear`, then `Clear`, else
nothing; any exception is logged and swallowed; state is untouched. -/
def clear_panel (display : Option Driver) (st : ManagerState) (to_white : Bool) :
    ManagerState × List HwEvent :=
  match display with
  | none => (st, [])
  | some d =>
    if d.hasClearLower then (st, [HwEvent.drvClearLower to_white])
    else if d.hasClearUpper then (st, [HwEvent.drvClearUpper to_white])
    else (st, [])

deriving instance DecidableEq for Except

/-- A call the button handler makes into the Display Manager. -/
inductive MgrOp
  | opDisplayImage (img : PImage) (save_to_cache : Bool) (force_draw : Bool)
  | opWaitUntilIdle
  | opSleep
  | opWake
  | opClearPanel (to_white : Bool)
deriving DecidableEq, Repr

/-- Outcome of a button press: the listener's tracked `_is_asleep` flag, the
manager's state, the manager-level calls made, and the driver-call trace. -/
structure PressResult where
  tracked : Bool
  mgr : ManagerState
  ops : List MgrOp
  hw : List HwEvent
deriving Repr

/-- `GpioInputManager._press_black` from `gpio_inputs.py`, lines 79–113:
open the configured black-image file when readable (`black_file` is its
decoded content, `none` when the path is unset or `Image.open` fails), else
generate solid black at panel size; draw it with `save_to_cache=False`
(forwarded through `_display`, `force_draw` left at its default `False`);
wait until idle; `sleep()`; mark the tracked state asleep.  If the draw
raises, the outer handler logs and the remaining steps are skipped. -/
def press_black (black_file : Option PImage) (cfg : DeviceConfig)
    (display : Option Driver) (tracked : Bool) (st : ManagerState) : PressResult :=
  let img :=
    match black_file with
    | some i => i
    | none => blackImage cfg.resolution.1 cfg.resolution.2
  let r := display_image cfg display st img none false false
  match r.result with
  | Except.error _ => ⟨tracked, r.state, [MgrOp.opDisplayImage img false false], r.events⟩
  | Except.ok _ =>
    let s := sleep display r.state
    ⟨true, s.1,
      [MgrOp.opDisplayImage img false false, MgrOp.opWaitUntilIdle, MgrOp.opSleep],
      r.events ++ s.2⟩

/-- The environment `_on_motion` reads: the feature flag and cooldown fixed
at listener construction, the manager's `is_asleep()`, the listener's own
tracked flag, the active plugin id from the refresh metadata (`none` when
`get_refresh_info` raises or the attribute is missing), and whether the
downstream `manual_update` call raises. -/
structure MotionEnv where
  aiMotionEnabled : Bool
  motionCooldown : Int
  mgrAsleep : Bool
  trackedAsleep : Bool
  pluginId : Option String
  refreshRaises : Bool
deriving DecidableEq, Repr

/-- Outcome of a motion event: whether the refresh-trigger interface was
invoked, the `_last_motion_ts` afterwards, and whether the invoked refresh
completed without raising. -/
structure MotionResult where
  triggered : Bool
  newLastTs : Int
  refreshOk : Bool
deriving DecidableEq, Repr

/-- `GpioInputManager._on_motion` from `gpio_inputs.py`, lines 117–147.
`now1` is the `time.time()` read for the unlocked cooldown filter, `now2`
the re-read under the lock; on acceptance `_last_motion_ts := now2` is
committed before the refresh call, whose exception is caught and logged. -/
def on_motion (env : MotionEnv) (lastTs now1 now2 : Int) : MotionResult :=
  if !env.aiMotionEnabled then ⟨false, lastTs, false⟩
  else if env.mgrAsleep || env.trackedAsleep then ⟨false, lastTs, false⟩
  else if env.pluginId ≠ some "ai_text" then ⟨false, lastTs, false⟩
  else if now1 - lastTs < env.motionCooldown then ⟨false, lastTs, false⟩
  else if now2 - lastTs < env.motionCooldown then ⟨false, lastTs, false⟩
  else ⟨true, now2, !env.refreshRaises⟩

/-! ### Concrete fixtures used by witnesses and counterexamples -/

/-- A 2×1 panel configuration with no orientation, no inversion, empty
enhancement settings. -/
def cfg0 : DeviceConfig := ⟨(2, 1), none, false, []⟩

/-- A driver exposing every capability, with no runtime faults. -/
def drvFull : Driver := ⟨true, true, true, true, true, true, true, false, false, false, false, false⟩

/-- A (truthy) driver object exposing none of the push capabilities. -/
def drvNoCaps : Driver := ⟨false, false, false, false, false, false, false, false, false, false, false, false⟩

/-- A 1×1 all-white image (not solid black). -/
def whiteImg1 : PImage := ⟨1, 1, [(255, 255, 255)]⟩

/-- A 1×1 all-black image. -/
def blackImg1 : PImage := ⟨1, 1, [(0, 0, 0)]⟩

/-- A 2×1 panel configuration with a truthy orientation, inversion on, and a
non-empty enhancement-settings block. -/
def cfg6 : DeviceConfig := ⟨(2, 1), some "vertical", true, [("contrast", 2)]⟩

/-- A motion environment: feature enabled, 20 s cooldown, everything awake,
AI-quote source active, refresh succeeding. -/
def env0 : MotionEnv := ⟨true, 20, false, false, some "ai_text", false⟩

/-! ### Helper lemmas shared between claim theorems -/

/-- Whether a driver-push event carries a frame of the given dimensions
(non-push events trivially qualify). -/
def eventFrameSized (res : Nat × Nat) : HwEvent → Bool
  | HwEvent.pushDisplayImage f _ => f.size == res
  | HwEvent.pushDisplay f => f.size == res
  | HwEvent.pushDraw f => f.size == res
  | _ => true

theorem size_resize_image (f : Frame) (res : Nat × Nat) : (resize_image f res).size = res := by
  unfold resize_image
  split
  · assumption
  · rfl

theorem size_apply_image_enhancement (f : Frame) (s : ImageSettings) :
    (apply_image_enhancement f s).size = f.size := by
  unfold apply_image_enhancement
  split <;> rfl

theorem pushFrame_sized (d : Driver) (f : Frame) (s : ImageSettings) (res : Nat × Nat)
    (h : f.size = res) : (pushFrame d f s).all (eventFrameSized res) = true := by
  by_cases h1 : d.hasDisplayImage <;> by_cases h2 : d.hasDisplay <;>
    by_cases h3 : d.hasDraw <;> by_cases h4 : d.pushRaises <;> by_cases h5 : d.hasRefresh <;>
      simp [pushFrame, eventFrameSized, h1, h2, h3, h4, h5, h]

theorem on_motion_facts (env : MotionEnv) (lastTs now1 now2 : Int)
    (ht : (on_motion env lastTs now1 now2).triggered = true) :
    env.aiMotionEnabled = true ∧ env.mgrAsleep = false ∧ env.trackedAsleep = false ∧
    env.pluginId = some "ai_text" ∧
    env.motionCooldown ≤ now1 - lastTs ∧ env.motionCooldown ≤ now2 - lastTs ∧
    (on_motion env lastTs now1 now2).newLastTs = now2 := by
  unfold on_motion at ht ⊢
  repeat' split at ht
  all_goals simp_all
  rw [if_neg (by omega), if_neg (by omega)]

theorem display_image_some_ok (cfg : DeviceConfig) (d : Driver) (st : ManagerState)
    (image : PImage) (iset : Option ImageSettings) (s2c fd : Bool) :
    ∃ f, (display_image cfg (some d) st image iset s2c fd).result = Except.ok f := by
  cases hb : is_solid_black image <;> cases ha : st.asleep && !fd <;>
    simp [display_image, hb, ha]

theorem display_image_no_cache_write (cfg : DeviceConfig) (display : Option Driver)
    (st : ManagerState) (image : PImage) (iset : Option ImageSettings) (fd : Bool) :
    (display_image cfg display st image iset false fd).state = st := by
  cases hb : is_solid_black image <;> cases ha : st.asleep && !fd <;> cases display <;>
    simp [display_image, hb, ha]

theorem sleep_state (display : Option Driver) (st : ManagerState) :
    (sleep display st).1 = { st with asleep := true } := by
  cases display with
  | none => rfl
  | some d => by_cases h : d.hasSleep <;> simp [sleep, h]

/-! ### Claim theorems -/

/-- C1 (counterexample): with the manager Asleep and a cached frame present,
the button handler does not call `wake()`, does not clear the panel, does
not restore the cached frame, and leaves the listener's tracked state marked
asleep — it draws a black frame, waits until idle, and sleeps again,
refuting the claimed toggle behaviour. -/
theorem C1_counterexample :
    (press_black none cfg0 (some drvFull) true ⟨true, some (Frame.raw whiteImg1)⟩).ops
      = [MgrOp.opDisplayImage (blackImage 2 1) false false, MgrOp.opWaitUntilIdle,
         MgrOp.opSleep] ∧
    (press_black none cfg0 (some drvFull) true ⟨true, some (Frame.raw whiteImg1)⟩).tracked
      = true ∧
    (press_black none cfg0 (some drvFull) true ⟨true, some (Frame.raw whiteImg1)⟩).hw
      = [HwEvent.drvSleep] := by decide

/-- C1 (amended): a button press, regardless of the current power state or
tracked state, draws one frame (the configured black file's content, else a
generated solid black at panel size) with `saveToCache=false`, waits until
idle, calls `sleep()`, and marks the tracked state asleep; it never calls
`wake()` or `clearPanel`, and the CachedFrame artifact is unchanged. -/
theorem C1_button_always_blanks (black_file : Option PImage) (cfg : DeviceConfig)
    (d : Driver) (tracked0 : Bool) (st : ManagerState) :
    (press_black black_file cfg (some d) tracked0 st).tracked = true ∧
    (press_black black_file cfg (some d) tracked0 st).mgr.asleep = true ∧
    (press_black black_file cfg (some d) tracked0 st).mgr.cache = st.cache ∧
    (∃ img, (press_black black_file cfg (some d) tracked0 st).ops
       = [MgrOp.opDisplayImage img false false, MgrOp.opWaitUntilIdle, MgrOp.opSleep]) ∧
    MgrOp.opWake ∉ (press_black black_file cfg (some d) tracked0 st).ops ∧
    (∀ w, MgrOp.opClearPanel w ∉ (press_black black_file cfg (some d) tracked0 st).ops) := by
  cases black_file with
  | none =>
      obtain ⟨f, hf⟩ := display_image_some_ok cfg d st
        (blackImage cfg.resolution.1 cfg.resolution.2) none false false
      have hstate := display_image_no_cache_write cfg (some d) st
        (blackImage cfg.resolution.1 cfg.resolution.2) none false
      simp [press_black, hf, hstate, sleep_state]
  | some i =>
      obtain ⟨f, hf⟩ := display_image_some_ok cfg d st i none false false
      have hstate := display_image_no_cache_write cfg (some d) st i none false
      simp [press_black, hf, hstate, sleep_state]

/-- C1 (witness): the amended claim at a concrete awake start. -/
theorem C1_button_always_blanks_witness :
    (press_black none cfg0 (some drvFull) false ⟨false, some (Frame.raw whiteImg1)⟩).tracked
      = true ∧
    (press_black none cfg0 (some drvFull) false ⟨false, some (Frame.raw whiteImg1)⟩).mgr.asleep
      = true ∧
    (press_black none cfg0 (some drvFull) false ⟨false, some (Frame.raw whiteImg1)⟩).mgr.cache
      = some (Frame.raw whiteImg1) ∧
    MgrOp.opWake ∉ (press_black none cfg0 (some drvFull) false
      ⟨false, some (Frame.raw whiteImg1)⟩).ops :=
  ⟨(C1_button_always_blanks none cfg0 drvFull false ⟨false, some (Frame.raw whiteImg1)⟩).1,
   (C1_button_always_blanks none cfg0 drvFull false ⟨false, some (Frame.raw whiteImg1)⟩).2.1,
   (C1_button_always_blanks none cfg0 drvFull false ⟨false, some (Frame.raw whiteImg1)⟩).2.2.1,
   (C1_button_always_blanks none cfg0 drvFull false
     ⟨false, some (Frame.raw whiteImg1)⟩).2.2.2.2.1⟩

/-- C2: while the manager is Asleep and `forceDraw=false`, `display_image`
issues no driver call at all and leaves the CachedFrame artifact untouched,
for every input image, settings, `saveToCache` value, and driver. -/
theorem C2_asleep_no_hw_no_cache (cfg : DeviceConfig) (display : Option Driver)
    (cache : Option Frame) (image : PImage) (iset : Option ImageSettings) (s2c : Bool) :
    (display_image cfg display ⟨true, cache⟩ image iset s2c false).events = [] ∧
    (display_image cfg display ⟨true, cache⟩ image iset s2c false).state.cache = cache := by
  cases hb : is_solid_black image <;> simp [display_image, hb]

/-- C2 (witness): the statement at a concrete asleep state. -/
theorem C2_asleep_no_hw_no_cache_witness :
    (display_image cfg0 (some drvFull) ⟨true, none⟩ whiteImg1 none true false).events = [] ∧
    (display_image cfg0 (some drvFull) ⟨true, none⟩ whiteImg1 none true false).state.cache
      = none :=
  C2_asleep_no_hw_no_cache cfg0 (some drvFull) none whiteImg1 none true

/-- C3: for every uniformly solid-black input image, `display_image` leaves
the manager state (and thus the CachedFrame artifact) untouched regardless
of `saveToCache`; any returned frame has panel resolution and went through
neither enhancement, orientation remap, nor rotation; if Asleep without
`forceDraw` the call returns a frame with no driver call; otherwise, with a
display present, the frame is pushed directly via the capability dispatch
with empty settings. -/
theorem C3_solid_black_fast_path (cfg : DeviceConfig) (display : Option Driver)
    (st : ManagerState) (image : PImage) (iset : Option ImageSettings) (s2c fd : Bool)
    (hb : is_solid_black image = true) :
    (display_image cfg display st image iset s2c fd).state = st ∧
    (∀ f, (display_image cfg display st image iset s2c fd).result = Except.ok f →
       f.size = cfg.resolution ∧ f.usedEnhancement = false ∧
       f.usedOrientation = false ∧ f.usedRotation = false) ∧
    (st.asleep = true → fd = false →
       (display_image cfg display st image iset s2c fd).events = [] ∧
       ∃ f, (display_image cfg display st image iset s2c fd).result = Except.ok f) ∧
    (∀ d, display = some d → (st.asleep && !fd) = false →
       ∃ f, (display_image cfg display st image iset s2c fd).result = Except.ok f ∧
            (display_image cfg display st image iset s2c fd).events = pushFrame d f []) := by
  refine ⟨?_, ?_, ?_, ?_⟩
  · cases ha : st.asleep && !fd <;> cases display <;> simp [display_image, hb, ha]
  · intro f hf
    cases ha : st.asleep && !fd <;> cases display <;>
      simp [display_image, hb, ha] at hf <;>
      (subst hf
       split <;>
         simp_all [Frame.size, Frame.usedEnhancement, Frame.usedOrientation,
           Frame.usedRotation])
  · intro h1 h2
    subst h2
    cases display <;> simp [display_image, hb, h1]
  · intro d hd hskip
    subst hd
    simp [display_image, hb, hskip]

/-- C3 (witness): a concrete 1×1 black frame drawn awake with
`saveToCache=true`: state unchanged and the resized frame skipped
enhancement. -/
theorem C3_solid_black_fast_path_witness :
    (display_image cfg0 (some drvFull) ⟨false, none⟩ blackImg1 none true false).state
      = ⟨false, none⟩ ∧
    (Frame.resized 2 1 (Frame.raw blackImg1)).usedEnhancement = false :=
  ⟨(C3_solid_black_fast_path cfg0 (some drvFull) ⟨false, none⟩ blackImg1 none true false
      (by decide)).1,
   ((C3_solid_black_fast_path cfg0 (some drvFull) ⟨false, none⟩ blackImg1 none true false
      (by decide)).2.1 (Frame.resized 2 1 (Frame.raw blackImg1)) (by decide)).2.1⟩

/-- C4: a motion event triggers the refresh interface only when the feature
flag is enabled, neither the manager's power state nor the listener's
tracked state is asleep, the active content source is "ai_text", and the
cooldown has elapsed at both the unlocked and the locked check; acceptance
commits `_last_motion_ts` to the locked time sample independently of whether
the downstream refresh raises, so a second event closer than the cooldown to
an accepted one does not trigger. -/
theorem C4_motion_cooldown_gating (env : MotionEnv) (lastTs now1 now2 now1' now2' : Int)
    (b : Bool) :
    ((on_motion env lastTs now1 now2).triggered = true →
       env.aiMotionEnabled = true ∧ env.mgrAsleep = false ∧ env.trackedAsleep = false ∧
       env.pluginId = some "ai_text" ∧
       env.motionCooldown ≤ now1 - lastTs ∧ env.motionCooldown ≤ now2 - lastTs ∧
       (on_motion env lastTs now1 now2).newLastTs = now2) ∧
    ((on_motion { env with refreshRaises := b } lastTs now1 now2).triggered
       = (on_motion env lastTs now1 now2).triggered ∧
     (on_motion { env with refreshRaises := b } lastTs now1 now2).newLastTs
       = (on_motion env lastTs now1 now2).newLastTs) ∧
    ((on_motion env lastTs now1 now2).triggered = true → now1' ≤ now2' →
       now2' - now2 < env.motionCooldown →
       (on_motion env (on_motion env lastTs now1 now2).newLastTs now1' now2').triggered
         = false) := by
  refine ⟨on_motion_facts env lastTs now1 now2, ?_, ?_⟩
  · unfold on_motion
    rcases env with ⟨e, cd, ma, ta, pid, rr⟩
    repeat' split
    all_goals simp_all
  · intro ht hmono hlt
    obtain ⟨h1, h2, h3, h4, h5, h6, h7⟩ := on_motion_facts env lastTs now1 now2 ht
    rw [h7]
    unfold on_motion
    simp [h1, h2, h3, h4]
    rw [if_pos (by omega)]

/-- C4 (witness): cooldown 20, accepted at time 26; the timestamp advances to
26 and a second event at times 30/31 does not trigger. -/
theorem C4_motion_cooldown_gating_witness :
    (on_motion env0 0 25 26).triggered = true ∧
    (on_motion env0 0 25 26).newLastTs = 26 ∧
    (on_motion env0 26 30 31).triggered = false :=
  ⟨by decide,
   ((C4_motion_cooldown_gating env0 0 25 26 30 31 true).1 (by decide)).2.2.2.2.2.2,
   by
     have h := (C4_motion_cooldown_gating env0 0 25 26 30 31 true).2.2 (by decide)
       (by decide) (by decide)
     simpa using h⟩

/-- C5: a driver exception during a hardware push, sleep, wake, or clear call
never propagates and never changes the outcome: `display_image`'s returned
frame and resulting state are identical whether or not the push raises (and
the result is a frame, not an error), and the state after `sleep`, `wake`,
and `clear_panel` is independent of the corresponding raise flag
(`clear_panel` never touches state at all). -/
theorem C5_driver_exception_swallowed (cfg : DeviceConfig) (d : Driver) (st : ManagerState)
    (image : PImage) (iset : Option ImageSettings) (s2c fd b bs bw bc tw : Bool) :
    (display_image cfg (some { d with pushRaises := b }) st image iset s2c fd).result
      = (display_image cfg (some d) st image iset s2c fd).result ∧
    (display_image cfg (some { d with pushRaises := b }) st image iset s2c fd).state
      = (display_image cfg (some d) st image iset s2c fd).state ∧
    (∃ f, (display_image cfg (some d) st image iset s2c fd).result = Except.ok f) ∧
    (sleep (some { d with sleepRaises := bs }) st).1 = (sleep (some d) st).1 ∧
    (wake (some { d with wakeRaises := bw }) st).1 = (wake (some d) st).1 ∧
    (clear_panel (some { d with clearRaises := bc }) st tw).1 = st := by
  cases hb : is_solid_black image <;>
    cases ha : st.asleep && !fd <;>
      simp [display_image, hb, ha, sleep, wake, clear_panel] <;>
        (try split) <;> (try split) <;> simp

/-- C5 (witness): a concrete awake draw with a raising push driver yields the
same result as with a healthy one, and a raising clear leaves state alone. -/
theorem C5_driver_exception_swallowed_witness :
    (display_image cfg0 (some { drvFull with pushRaises := true }) ⟨false, none⟩ whiteImg1
        none true false).result
      = (display_image cfg0 (some drvFull) ⟨false, none⟩ whiteImg1 none true false).result ∧
    (clear_panel (some { drvFull with clearRaises := true }) ⟨false, none⟩ true).1
      = ⟨false, none⟩ :=
  ⟨(C5_driver_exception_swallowed cfg0 drvFull ⟨false, none⟩ whiteImg1 none true false
      true true true true true).1,
   (C5_driver_exception_swallowed cfg0 drvFull ⟨false, none⟩ whiteImg1 none true false
      true true true true true).2.2.2.2.2⟩

/-- C6: on the normal (non-solid-black) path, any frame `display_image`
returns is exactly the enhancement stage applied to the (optional) 180°
rotation of the resize-to-panel-resolution of the (optional) orientation
remap of the input — the fixed stage order, with enhancement operating on
the final geometry. -/
theorem C6_transform_order (cfg : DeviceConfig) (display : Option Driver)
    (st : ManagerState) (image : PImage) (iset : Option ImageSettings) (s2c fd : Bool)
    (hb : is_solid_black image = false) :
    ∀ f, (display_image cfg display st image iset s2c fd).result = Except.ok f →
      f = apply_image_enhancement
            (if cfg.invertedImage then
              Frame.rotated180 (resize_image
                (match cfg.orientation with
                 | some o => if o ≠ "" then change_orientation (Frame.raw image) o
                             else Frame.raw image
                 | none => Frame.raw image) cfg.resolution)
             else resize_image
                (match cfg.orientation with
                 | some o => if o ≠ "" then change_orientation (Frame.raw image) o
                             else Frame.raw image
                 | none => Frame.raw image) cfg.resolution)
            (match iset with | some s => s | none => cfg.imageSettings) := by
  intro f hf
  cases ha : st.asleep && !fd <;> cases display <;>
    simp [display_image, hb, ha] at hf <;> simp [hf]

/-- C6 (witness): with orientation "vertical", inversion on, and non-empty
settings, the concrete returned frame is
enhanced (rotated180 (resized (oriented (raw input)))). -/
theorem C6_transform_order_witness :
    Frame.enhanced [("contrast", 2)]
        (Frame.rotated180 (Frame.resized 2 1 (Frame.oriented "vertical"
          (Frame.raw whiteImg1))))
      = apply_image_enhancement
          (if cfg6.invertedImage then
            Frame.rotated180 (resize_image
              (match cfg6.orientation with
               | some o => if o ≠ "" then change_orientation (Frame.raw whiteImg1) o
                           else Frame.raw whiteImg1
               | none => Frame.raw whiteImg1) cfg6.resolution)
           else resize_image
              (match cfg6.orientation with
               | some o => if o ≠ "" then change_orientation (Frame.raw whiteImg1) o
                           else Frame.raw whiteImg1
               | none => Frame.raw whiteImg1) cfg6.resolution)
          (match (none : Option ImageSettings) with
           | some s => s
           | none => cfg6.imageSettings) :=
  C6_transform_order cfg6 (some drvFull) ⟨false, none⟩ whiteImg1 none true false
    (by decide)
    (Frame.enhanced [("contrast", 2)]
      (Frame.rotated180 (Frame.resized 2 1 (Frame.oriented "vertical"
        (Frame.raw whiteImg1)))))
    (by decide)

/-- C7: every frame `display_image` hands to the driver, and every frame it
returns, on either path, has dimensions exactly the configured panel
resolution, for every input image, settings, flags, and driver. -/
theorem C7_frame_resolution (cfg : DeviceConfig) (display : Option Driver)
    (st : ManagerState) (image : PImage) (iset : Option ImageSettings) (s2c fd : Bool) :
    ((display_image cfg display st image iset s2c fd).events.all
      (eventFrameSized cfg.resolution)) = true ∧
    (∀ f, (display_image cfg display st image iset s2c fd).result = Except.ok f →
      f.size = cfg.resolution) := by
  have hrot : ∀ (f1 : Frame),
      (if cfg.invertedImage = true then (resize_image f1 cfg.resolution).rotated180
       else resize_image f1 cfg.resolution).size = cfg.resolution := by
    intro f1
    split <;> simp [Frame.size, size_resize_image]
  have hfast :
      (if image.size = cfg.resolution then Frame.raw image
       else Frame.resized cfg.resolution.1 cfg.resolution.2 (Frame.raw image)).size
        = cfg.resolution := by
    split <;> simp_all [Frame.size]
  cases hb : is_solid_black image <;> cases ha : st.asleep && !fd <;> cases display <;>
    simp [display_image, hb, ha, size_apply_image_enhancement, hrot, hfast] <;>
    first
      | exact List.all_eq_true.mp (pushFrame_sized _ _ _ _
          (by simp [size_apply_image_enhancement, hrot]))
      | exact List.all_eq_true.mp (pushFrame_sized _ _ _ _ hfast)

/-- C7 (witness): the pushed-events check at a concrete awake draw, and the
concrete returned frame has the panel resolution. -/
theorem C7_frame_resolution_witness :
    ((display_image cfg0 (some drvFull) ⟨false, none⟩ whiteImg1 none true false).events.all
      (eventFrameSized cfg0.resolution)) = true ∧
    (Frame.resized 2 1 (Frame.raw whiteImg1)).size = cfg0.resolution :=
  ⟨(C7_frame_resolution cfg0 (some drvFull) ⟨false, none⟩ whiteImg1 none true false).1,
   (C7_frame_resolution cfg0 (some drvFull) ⟨false, none⟩ whiteImg1 none true false).2
     (Frame.resized 2 1 (Frame.raw whiteImg1)) (by decide)⟩

/-- C8 (counterexample): a (truthy) resolved driver exposing none of the push
capabilities does not make `display_image` raise: the call completes,
returning the transformed frame, with no driver call at all — contradicting
the claim that an error is raised at first use. -/
theorem C8_counterexample :
    (display_image cfg0 (some drvNoCaps) ⟨false, none⟩ whiteImg1 none true false).result
      = Except.ok (Frame.resized 2 1 (Frame.raw whiteImg1)) ∧
    (display_image cfg0 (some drvNoCaps) ⟨false, none⟩ whiteImg1 none true false).events
      = [] := by decide

/-- C8 (amended): the manager invokes the richest capability the driver
exposes, in priority order `display_image`, then `display`, then `draw`
followed by `refresh` when present; a driver exposing none of these makes
the push a silent no-op (no event, no error); the
"No valid display instance initialized." error is raised at first use only
when no display instance is present at all. -/
theorem C8_capability_priority (d : Driver) (f : Frame) (s : ImageSettings)
    (cfg : DeviceConfig) (st : ManagerState) (image : PImage)
    (iset : Option ImageSettings) (s2c fd : Bool) :
    (d.hasDisplayImage = true → pushFrame d f s = [HwEvent.pushDisplayImage f s]) ∧
    (d.hasDisplayImage = false → d.hasDisplay = true →
       pushFrame d f s = [HwEvent.pushDisplay f]) ∧
    (d.hasDisplayImage = false → d.hasDisplay = false → d.hasDraw = true →
       d.pushRaises = false →
       pushFrame d f s
         = HwEvent.pushDraw f :: (if d.hasRefresh then [HwEvent.refreshPanel] else [])) ∧
    (d.hasDisplayImage = false → d.hasDisplay = false → d.hasDraw = false →
       pushFrame d f s = []) ∧
    ((st.asleep = false ∨ fd = true) →
       (display_image cfg none st image iset s2c fd).result
         = Except.error "No valid display instance initialized.") := by
  refine ⟨?_, ?_, ?_, ?_, ?_⟩
  · intro h
    simp [pushFrame, h]
  · intro h1 h2
    simp [pushFrame, h1, h2]
  · intro h1 h2 h3 h4
    simp [pushFrame, h1, h2, h3, h4]
  · intro h1 h2 h3
    simp [pushFrame, h1, h2, h3]
  · intro h
    have ha : (st.asleep && !fd) = false := by
      rcases h with h | h <;> simp [h]
    cases hb : is_solid_black image <;> simp [display_image, hb, ha]

/-- C8 (witness): the amended claim at concrete inputs — the full-capability
driver dispatches `display_image`, and a missing display instance raises. -/
theorem C8_capability_priority_witness :
    pushFrame drvFull (Frame.raw whiteImg1) []
      = [HwEvent.pushDisplayImage (Frame.raw whiteImg1) []] ∧
    (display_image cfg0 none ⟨false, none⟩ whiteImg1 none true false).result
      = Except.error "No valid display instance initialized." :=
  ⟨(C8_capability_priority drvFull (Frame.raw whiteImg1) [] cfg0 ⟨false, none⟩ whiteImg1
      none true false).1 rfl,
   (C8_capability_priority drvFull (Frame.raw whiteImg1) [] cfg0 ⟨false, none⟩ whiteImg1
      none true false).2.2.2.2 (Or.inl rfl)⟩

/-- C9: `sleep` and `wake` are idempotent on the manager state, `sleep`
immediately followed by `wake` leaves the state awake with the cache intact,
and the resulting state is independent of whether the underlying driver call
raises (the transition is never blocked; no exception escapes, both being
total functions here because the source swallows every driver exception). -/
theorem C9_sleep_wake_idempotent (display : Option Driver) (st : ManagerState)
    (d : Driver) (b : Bool) :
    (sleep display (sleep display st).1).1 = (sleep display st).1 ∧
    (wake display (wake display st).1).1 = (wake display st).1 ∧
    (wake display (sleep display st).1).1.asleep = false ∧
    (wake display (sleep display st).1).1.cache = st.cache ∧
    (sleep (some { d with sleepRaises := b }) st).1 = (sleep (some d) st).1 ∧
    (wake (some { d with wakeRaises := b }) st).1 = (wake (some d) st).1 := by
  cases display with
  | none => simp [sleep, wake]
  | some v =>
      by_cases hs : v.hasSleep <;> by_cases hw : v.hasWake <;> simp [sleep, wake, hs, hw]

/-- C9 (witness): the statement at a concrete awake state with a raising
sleep driver. -/
theorem C9_sleep_wake_idempotent_witness :
    (wake (some drvFull) (sleep (some drvFull) ⟨false, none⟩).1).1.asleep = false ∧
    (sleep (some { drvFull with sleepRaises := true }) ⟨false, none⟩).1
      = (sleep (some drvFull) ⟨false, none⟩).1 :=
  ⟨(C9_sleep_wake_idempotent (some drvFull) ⟨false, none⟩ drvFull true).2.2.1,
   (C9_sleep_wake_idempotent (some drvFull) ⟨false, none⟩ drvFull true).2.2.2.2.1⟩

/-- C10: a `display_image(image, saveToCache=true, forceDraw=true)` call made
while Asleep with a non-solid-black image pushes the frame to the driver
(the event trace is the capability dispatch on the transformed frame and is
non-empty whenever the driver has any push capability) yet the CachedFrame
artifact is still not written: `forceDraw` overrides the asleep draw-skip
but never the asleep cache-skip. -/
theorem C10_force_draw_no_cache (cfg : DeviceConfig) (d : Driver) (cache : Option Frame)
    (image : PImage) (iset : Option ImageSettings)
    (hb : is_solid_black image = false)
    (hcap : d.hasDisplayImage = true ∨ d.hasDisplay = true ∨ d.hasDraw = true) :
    (display_image cfg (some d) ⟨true, cache⟩ image iset true true).state.cache = cache ∧
    (display_image cfg (some d) ⟨true, cache⟩ image iset true true).events ≠ [] ∧
    ∃ f, (display_image cfg (some d) ⟨true, cache⟩ image iset true true).result
           = Except.ok f ∧
         (display_image cfg (some d) ⟨true, cache⟩ image iset true true).events
           = pushFrame d f (match iset with | some s => s | none => cfg.imageSettings) := by
  have hne : ∀ (f : Frame) (s : ImageSettings), pushFrame d f s ≠ [] := by
    intro f s
    rcases hcap with h | h | h <;> by_cases h1 : d.hasDisplayImage <;>
      by_cases h2 : d.hasDisplay <;> by_cases h4 : d.pushRaises <;>
        by_cases h5 : d.hasRefresh <;> simp_all [pushFrame]
  simp [display_image, hb]
  exact hne _ _

/-- C10 (witness): a concrete asleep forced draw of a white frame pushes to
hardware but leaves the cache file absent. -/
theorem C10_force_draw_no_cache_witness :
    (display_image cfg0 (some drvFull) ⟨true, none⟩ whiteImg1 none true true).state.cache
      = none ∧
    (display_image cfg0 (some drvFull) ⟨true, none⟩ whiteImg1 none true true).events ≠ [] :=
  ⟨(C10_force_draw_no_cache cfg0 drvFull none whiteImg1 none (by decide) (Or.inl rfl)).1,
   (C10_force_draw_no_cache cfg0 drvFull none whiteImg1 none (by decide) (Or.inl rfl)).2.1⟩
